import Mathlib

/-!
# Notifier.Notify: effect-trace embedding

The Go function `Notify` is straight-line code over four collaborators
(tracer, SNS client, message printer, UUID generator) with two fatal
branches.  It is embedded as a function in a small monad `Go` that

* reads the collaborators' answers from an environment (`Env`) or from the
  injected client (`SNS.PublishWithContext`),
* logs every externally visible effect as an `Event`, in program order,
* keeps the stack of deferred calls of the running function, and
* distinguishes a normal return from `os.Exit` (reached through `log.Fatal`),
  which ends the process without running deferred calls.
-/

namespace Pipeline

/-! ## Data model -/

/-- Go struct `DataPipelineNotification` (source lines 24-29). -/
structure DataPipelineNotification where
  PipelineName : String
  Status : String
  Timestamp : Int
  Message : String
deriving DecidableEq, Repr

/-- Span handle returned by `Tracer.StartSpan`: the tracer it belongs to and its name. -/
structure Span where
  tracer : String
  name : String
deriving DecidableEq, Repr

/-- Go `context.Context` values as far as tracing is concerned: the root
context `context.Background()`, or a context derived from a parent that
carries a span. -/
inductive Context where
  | Background : Context
  | WithSpan (parent : Context) (span : Span) : Context
deriving DecidableEq, Repr

/-- Span carried by a context, if any. -/
def Context.span? : Context → Option Span
  | Context.Background => none
  | Context.WithSpan _ s => some s

/-- Request type `sns.PublishInput` of the AWS SDK: every field is a pointer
(here `Option`), unset fields are `nil` (here `none`). -/
structure PublishInput where
  Message : Option String
  MessageAttributes : Option (List (String × String))
  MessageDeduplicationId : Option String
  MessageGroupId : Option String
  MessageStructure : Option String
  PhoneNumber : Option String
  Subject : Option String
  TargetArn : Option String
  TopicArn : Option String
deriving DecidableEq, Repr

/-- Response type `sns.PublishOutput` of the AWS SDK. -/
structure PublishOutput where
  MessageId : Option String
deriving DecidableEq, Repr

/-- Identifier type `uuid.UUID` (a 128-bit value). -/
structure UUID where
  val : Nat
deriving DecidableEq, Repr

/-- Result of a fallible Go call `(v, err)`: `ok v` when `err == nil`,
otherwise `err msg`. -/
inductive GoResult (α : Type) where
  | ok (v : α) : GoResult α
  | err (msg : String) : GoResult α
deriving DecidableEq, Repr

/-- Handle `*tracesdk.TracerProvider`, built by `setupTracing`. -/
structure TracerProvider where
  collectorEndpoint : String
deriving DecidableEq, Repr

/-- Client `*sns.SNS`: the behaviour of its `PublishWithContext` method. -/
structure SNS where
  PublishWithContext : Context → PublishInput → GoResult PublishOutput

/-- Printer `*message.Printer`, created for a language tag. -/
structure Printer where
  lang : String
deriving DecidableEq, Repr

/-- Go struct `Notifier` (source lines 75-79). -/
structure Notifier where
  tp : TracerProvider
  svc : SNS
  prt : Printer

/-- Constructor `NewNotifier` (source lines 81-83). -/
def NewNotifier (tp : TracerProvider) (svc : SNS) (prt : Printer) : Notifier :=
  { tp := tp, svc := svc, prt := prt }

/-! ## Effects -/

/-- Externally visible effects, in the order the program performs them. -/
inductive Event where
  | startSpan (tracer : String) (ctx : Context) (name : String) : Event
  | publish (ctx : Context) (input : PublishInput) : Event
  | stdout (text : String) : Event
  | newRandom : Event
  | setAttributes (span : Span) (key : String) (value : UUID) : Event
  | spanEnd (span : Span) : Event
  | logPrint (msg : String) : Event
deriving DecidableEq, Repr

/-- Calls registered with `defer`, as data. -/
inductive Deferred where
  | spanEnd (span : Span) : Deferred
deriving DecidableEq, Repr

/-- Process-level surroundings of the code: the value of the constant
`semconv.AttributeUUID` (its declaration is not part of the source file) and
the answer the random source gives to the k-th call of `uuid.NewRandom`. -/
structure Env where
  AttributeUUID : String
  NewRandom : Nat → GoResult UUID

/-- State of a running function: events so far (oldest first), number of
`uuid.NewRandom` calls made so far, and the stack of deferred calls (most
recent first). -/
structure Frame where
  trace : List Event
  randCalls : Nat
  defers : List Deferred
deriving DecidableEq, Repr

/-- Outcome of running a piece of Go code: it continues with a value, or the
process exits with a status code. -/
inductive Result (α : Type) where
  | cont (a : α) (f : Frame) : Result α
  | exit (code : Nat) (f : Frame) : Result α
deriving DecidableEq, Repr

/-- Go code producing a value of type `α`. -/
def Go (α : Type) : Type := Env → Frame → Result α

/-- Pure value. -/
def Go.pure {α : Type} (a : α) : Go α := fun _ f => Result.cont a f

/-- Sequencing: after `os.Exit` nothing else runs. -/
def Go.bind {α β : Type} (m : Go α) (k : α → Go β) : Go β := fun e f =>
  match m e f with
  | Result.cont a f1 => k a e f1
  | Result.exit c f1 => Result.exit c f1

instance : Monad Go where
  pure := Go.pure
  bind := Go.bind

/-- Append one event to the trace. -/
def emit (ev : Event) : Go Unit := fun _ f =>
  Result.cont () { f with trace := f.trace ++ [ev] }

/-- Statement `defer call`: push the call on the defer stack. -/
def defer (d : Deferred) : Go Unit := fun _ f =>
  Result.cont () { f with defers := d :: f.defers }

/-- Function `os.Exit(code)`: the process ends immediately; deferred
functions are not run. -/
def osExit {α : Type} (code : Nat) : Go α := fun _ f => Result.exit code f

/-- Function `log.Fatal(err)`: `Print` to the standard logger (standard
error) followed by `os.Exit(1)`. -/
def logFatal {α : Type} (err : String) : Go α := do
  emit (Event.logPrint err)
  osExit 1

/-- Method `Tracer.StartSpan(ctx, name)` on `tp.Tracer(tracerName)`; it
returns the span only. -/
def StartSpan (_tp : TracerProvider) (tracerName : String) (ctx : Context)
    (name : String) : Go Span := do
  emit (Event.startSpan tracerName ctx name)
  return { tracer := tracerName, name := name }

/-- Method `span.End()`. -/
def Span.End (s : Span) : Go Unit := emit (Event.spanEnd s)

/-- Method `span.SetAttributes(semconv.Attribute(key, value))`. -/
def Span.SetAttributes (s : Span) (key : String) (value : UUID) : Go Unit :=
  emit (Event.setAttributes s key value)

/-- Method `svc.PublishWithContext(ctx, input)`: one call to the client. -/
def PublishWithContext (svc : SNS) (ctx : Context) (input : PublishInput) :
    Go (GoResult PublishOutput) := do
  emit (Event.publish ctx input)
  return svc.PublishWithContext ctx input

/-- Text produced by `Println`: operands separated by single spaces, then a
newline.  String operands are written unchanged. -/
def printlnText : List String → String
  | [] => "\n"
  | [a] => a ++ "\n"
  | a :: b :: rest => a ++ " " ++ printlnText (b :: rest)

/-- Method `prt.Println(operands...)` on a `message.Printer`: writes to
standard output. -/
def Printer.Println (_p : Printer) (operands : List String) : Go Unit :=
  emit (Event.stdout (printlnText operands))

/-- Function `uuid.NewRandom()`: one read of the random source. -/
def uuidNewRandom : Go (GoResult UUID) := fun e f =>
  Result.cont (e.NewRandom f.randCalls)
    { f with trace := f.trace ++ [Event.newRandom], randCalls := f.randCalls + 1 }

/-- Constant `semconv.AttributeUUID`, converted with `string(...)`. -/
def semconvAttributeUUID : Go String := fun e f => Result.cont e.AttributeUUID f

/-- Run one deferred call. -/
def Deferred.run : Deferred → Go Unit
  | Deferred.spanEnd s => s.End

/-- Run a stack of deferred calls, most recently deferred first. -/
def runDefers : List Deferred → Go Unit
  | [] => Go.pure ()
  | d :: ds => Go.bind d.run (fun _ => runDefers ds)

/-- Function call: the body runs with an empty defer stack of its own; when
it returns, its deferred calls run (last deferred first) and the caller's
defer stack is back in place.  When the body exits the process, the deferred
calls do not run. -/
def call {α : Type} (body : Go α) : Go α := fun e f =>
  match body e { f with defers := [] } with
  | Result.cont a f1 =>
    match runDefers f1.defers e { f1 with defers := [] } with
    | Result.cont _ f2 => Result.cont a { f2 with defers := f.defers }
    | Result.exit c f2 => Result.exit c f2
  | Result.exit c f1 => Result.exit c f1

/-! ## The program -/

/-- Request built at source lines 91-95 (`aws.String` takes the address of
its argument). -/
def snsInput (notification : DataPipelineNotification) : PublishInput :=
  { Message := some notification.Message
    MessageAttributes := none
    MessageDeduplicationId := none
    MessageGroupId := none
    MessageStructure := none
    PhoneNumber := none
    Subject := some "Data Pipeline Notification"
    TargetArn := none
    TopicArn := some "arn:aws:sns:us-west-2:123456789012:my-topic" }

/-- Method `(*Notifier).Notify` (source lines 85-109). -/
def Notify (n : Notifier) (notification : DataPipelineNotification) : Go Unit :=
  call (do
    let ctx := Context.Background
    let span ← StartSpan n.tp "my-tracer" ctx "Notify"
    defer (Deferred.spanEnd span)
    let input := snsInput notification
    match ← PublishWithContext n.svc ctx input with
    | GoResult.err err => logFatal err
    | GoResult.ok _ =>
      n.prt.Println ["Notification sent:", notification.PipelineName]
      match ← uuidNewRandom with
      | GoResult.err err => logFatal err
      | GoResult.ok uuid =>
        let key ← semconvAttributeUUID
        span.SetAttributes key uuid)

/-- Notification literal passed to `Notify` in `main` (source lines 55-60). -/
def mainNotification : DataPipelineNotification :=
  { PipelineName := "my-pipeline"
    Status := "FAILED"
    Timestamp := 1643723400
    Message := "Error processing data" }

/-- Printer created in `main` (source line 51). -/
def mainPrinter : Printer := { lang := "en" }

/-- Frame of a process that has done nothing yet. -/
def Frame.start : Frame := { trace := [], randCalls := 0, defers := [] }


/-! ## Observations on runs -/

/-- Whether a fallible call reported an error. -/
def GoResult.failed {α : Type} : GoResult α → Bool
  | GoResult.ok _ => false
  | GoResult.err _ => true

/-- Frame in which a run stopped. -/
def Result.frame {α : Type} : Result α → Frame
  | Result.cont _ f => f
  | Result.exit _ f => f

/-- Exit status when the run ended the process, `none` when it returned. -/
def Result.exitCode {α : Type} : Result α → Option Nat
  | Result.cont _ _ => none
  | Result.exit c _ => some c

/-- Events a piece of code adds to the trace when run from frame `f`. -/
def effects {α : Type} (m : Go α) (e : Env) (f : Frame) : List Event :=
  (m e f).frame.trace.drop f.trace.length

/-- Publish calls in a trace: context and request of each. -/
def publishCalls : List Event → List (Context × PublishInput)
  | [] => []
  | Event.publish c i :: rest => (c, i) :: publishCalls rest
  | _ :: rest => publishCalls rest

/-- Texts written to standard output in a trace. -/
def stdoutWrites : List Event → List String
  | [] => []
  | Event.stdout t :: rest => t :: stdoutWrites rest
  | _ :: rest => stdoutWrites rest

/-- Spans started in a trace: tracer name and span name of each. -/
def spansStarted : List Event → List (String × String)
  | [] => []
  | Event.startSpan t _ n :: rest => (t, n) :: spansStarted rest
  | _ :: rest => spansStarted rest

/-- Parent contexts handed to `StartSpan` in a trace. -/
def spanParents : List Event → List Context
  | [] => []
  | Event.startSpan _ c _ :: rest => c :: spanParents rest
  | _ :: rest => spanParents rest

/-- Attributes set in a trace: span, key, value. -/
def attributesSet : List Event → List (Span × String × UUID)
  | [] => []
  | Event.setAttributes s k v :: rest => (s, k, v) :: attributesSet rest
  | _ :: rest => attributesSet rest

/-- Spans ended in a trace. -/
def spansEnded : List Event → List Span
  | [] => []
  | Event.spanEnd s :: rest => s :: spansEnded rest
  | _ :: rest => spansEnded rest

/-- Number of reads of the random source in a trace. -/
def randomReads : List Event → Nat
  | [] => 0
  | Event.newRandom :: rest => randomReads rest + 1
  | _ :: rest => randomReads rest

/-- Span that `Notify` starts. -/
def notifySpan : Span := { tracer := "my-tracer", name := "Notify" }

/-- Client whose publish call always succeeds. -/
def okClient : SNS :=
  { PublishWithContext := fun _ _ => GoResult.ok { MessageId := some "m-1" } }

/-- Client whose publish call always fails. -/
def failingClient : SNS :=
  { PublishWithContext := fun _ _ => GoResult.err "publish failed" }

/-- Surroundings in which identifier generation succeeds. -/
def okEnv : Env :=
  { AttributeUUID := "uuid", NewRandom := fun k => GoResult.ok { val := 1000 + k } }

/-- Surroundings in which identifier generation fails. -/
def noEntropyEnv : Env :=
  { AttributeUUID := "uuid", NewRandom := fun _ => GoResult.err "no entropy" }

/-- Tracer provider used in the examples. -/
def demoProvider : TracerProvider :=
  { collectorEndpoint := "http://localhost:14250/api/traces" }

/-- Notifier wired as in `main`, with a client that succeeds. -/
def demoNotifier : Notifier := NewNotifier demoProvider okClient mainPrinter

/-- Notifier wired as in `main`, with a client that fails. -/
def failingNotifier : Notifier := NewNotifier demoProvider failingClient mainPrinter

/-- Notification that differs from the one in `main` in every field but `Message`. -/
def otherNotification : DataPipelineNotification :=
  { PipelineName := "other-pipeline"
    Status := "SUCCEEDED"
    Timestamp := 1700000000
    Message := "Error processing data" }

/-- Notification whose pipeline name contains a line break. -/
def twoLineNotification : DataPipelineNotification :=
  { PipelineName := "a\nb"
    Status := "FAILED"
    Timestamp := 1643723400
    Message := "Error processing data" }

/-- Line feed, the character that ends a line of output. -/
def lineFeed : Char := Char.ofNat 10

/-- Lines of a text: the text is cut at every line feed; characters after the
last line feed, if any, form a last line. -/
def linesOf : List Char → List (List Char)
  | [] => []
  | c :: cs =>
    if c = lineFeed then [] :: linesOf cs
    else
      match linesOf cs with
      | [] => [[c]]
      | l :: ls => (c :: l) :: ls

/-- Characters written to standard output in a trace, in order. -/
def stdoutChars : List Event → List Char
  | [] => []
  | Event.stdout t :: rest => t.data ++ stdoutChars rest
  | _ :: rest => stdoutChars rest

/-- Lines written to standard output in a trace. -/
def stdoutLines (evs : List Event) : List String :=
  (linesOf (stdoutChars evs)).map String.mk

/-! ## Runs of `Notify` -/

theorem GoResult.exists_ok_of_failed_eq_false {α : Type} (r : GoResult α)
    (h : r.failed = false) : ∃ v, r = GoResult.ok v := by
  cases r with
  | ok v => exact ⟨v, rfl⟩
  | err m => simp [GoResult.failed] at h

theorem GoResult.exists_err_of_failed_eq_true {α : Type} (r : GoResult α)
    (h : r.failed = true) : ∃ m, r = GoResult.err m := by
  cases r with
  | ok v => simp [GoResult.failed] at h
  | err m => exact ⟨m, rfl⟩

theorem effects_eq_of_run {α : Type} (m : Go α) (e : Env) (f : Frame) (r : Result α)
    (l : List Event) (h : m e f = r) (ht : r.frame.trace = f.trace ++ l) :
    effects m e f = l := by
  simp [effects, h, ht]


theorem Notify_publish_err (n : Notifier) (x : DataPipelineNotification) (e : Env)
    (f : Frame) (msg : String)
    (h : n.svc.PublishWithContext Context.Background (snsInput x) = GoResult.err msg) :
    Notify n x e f = Result.exit 1
      { trace := f.trace ++ [Event.startSpan "my-tracer" Context.Background "Notify",
          Event.publish Context.Background (snsInput x), Event.logPrint msg]
        randCalls := f.randCalls
        defers := [Deferred.spanEnd notifySpan] } := by
  simp [Notify, call, Bind.bind, Go.bind, StartSpan, emit, defer, PublishWithContext, h,
    logFatal, osExit, Pure.pure, Go.pure, notifySpan]

theorem Notify_random_err (n : Notifier) (x : DataPipelineNotification) (e : Env)
    (f : Frame) (out : PublishOutput) (msg : String)
    (h : n.svc.PublishWithContext Context.Background (snsInput x) = GoResult.ok out)
    (hu : e.NewRandom f.randCalls = GoResult.err msg) :
    Notify n x e f = Result.exit 1
      { trace := f.trace ++ [Event.startSpan "my-tracer" Context.Background "Notify",
          Event.publish Context.Background (snsInput x),
          Event.stdout ("Notification sent: " ++ x.PipelineName ++ "\n"),
          Event.newRandom, Event.logPrint msg]
        randCalls := f.randCalls + 1
        defers := [Deferred.spanEnd notifySpan] } := by
  simp [Notify, call, Bind.bind, Go.bind, StartSpan, emit, defer, PublishWithContext, h, hu,
    logFatal, osExit, Pure.pure, Go.pure, notifySpan, Printer.Println, uuidNewRandom,
    printlnText, String.append_assoc]

theorem Notify_ok (n : Notifier) (x : DataPipelineNotification) (e : Env)
    (f : Frame) (out : PublishOutput) (u : UUID)
    (h : n.svc.PublishWithContext Context.Background (snsInput x) = GoResult.ok out)
    (hu : e.NewRandom f.randCalls = GoResult.ok u) :
    Notify n x e f = Result.cont ()
      { trace := f.trace ++ [Event.startSpan "my-tracer" Context.Background "Notify",
          Event.publish Context.Background (snsInput x),
          Event.stdout ("Notification sent: " ++ x.PipelineName ++ "\n"),
          Event.newRandom, Event.setAttributes notifySpan e.AttributeUUID u,
          Event.spanEnd notifySpan]
        randCalls := f.randCalls + 1
        defers := f.defers } := by
  simp [Notify, call, Bind.bind, Go.bind, StartSpan, emit, defer, PublishWithContext, h, hu,
    Pure.pure, Go.pure, notifySpan, Printer.Println, uuidNewRandom,
    printlnText, semconvAttributeUUID, Span.SetAttributes, runDefers, Deferred.run, Span.End,
    String.append_assoc]

theorem effects_Notify_publish_err (n : Notifier) (x : DataPipelineNotification) (e : Env)
    (f : Frame) (msg : String)
    (h : n.svc.PublishWithContext Context.Background (snsInput x) = GoResult.err msg) :
    effects (Notify n x) e f =
      [Event.startSpan "my-tracer" Context.Background "Notify",
        Event.publish Context.Background (snsInput x), Event.logPrint msg] :=
  effects_eq_of_run _ e f _ _ (Notify_publish_err n x e f msg h) rfl

theorem effects_Notify_random_err (n : Notifier) (x : DataPipelineNotification) (e : Env)
    (f : Frame) (out : PublishOutput) (msg : String)
    (h : n.svc.PublishWithContext Context.Background (snsInput x) = GoResult.ok out)
    (hu : e.NewRandom f.randCalls = GoResult.err msg) :
    effects (Notify n x) e f =
      [Event.startSpan "my-tracer" Context.Background "Notify",
        Event.publish Context.Background (snsInput x),
        Event.stdout ("Notification sent: " ++ x.PipelineName ++ "\n"),
        Event.newRandom, Event.logPrint msg] :=
  effects_eq_of_run _ e f _ _ (Notify_random_err n x e f out msg h hu) rfl

theorem effects_Notify_ok (n : Notifier) (x : DataPipelineNotification) (e : Env)
    (f : Frame) (out : PublishOutput) (u : UUID)
    (h : n.svc.PublishWithContext Context.Background (snsInput x) = GoResult.ok out)
    (hu : e.NewRandom f.randCalls = GoResult.ok u) :
    effects (Notify n x) e f =
      [Event.startSpan "my-tracer" Context.Background "Notify",
        Event.publish Context.Background (snsInput x),
        Event.stdout ("Notification sent: " ++ x.PipelineName ++ "\n"),
        Event.newRandom, Event.setAttributes notifySpan e.AttributeUUID u,
        Event.spanEnd notifySpan] :=
  effects_eq_of_run _ e f _ _ (Notify_ok n x e f out u h hu) rfl

/-- Whatever the collaborators answer, `Notify` makes exactly one publish
call, with the background context and the request `snsInput`. -/
theorem publishCalls_Notify (n : Notifier) (x : DataPipelineNotification) (e : Env)
    (f : Frame) :
    publishCalls (effects (Notify n x) e f) = [(Context.Background, snsInput x)] := by
  cases h : n.svc.PublishWithContext Context.Background (snsInput x) with
  | err msg => rw [effects_Notify_publish_err n x e f msg h]; rfl
  | ok out =>
    cases hu : e.NewRandom f.randCalls with
    | err msg => rw [effects_Notify_random_err n x e f out msg h hu]; rfl
    | ok u => rw [effects_Notify_ok n x e f out u h hu]; rfl

/-- Whatever the collaborators answer, `Notify` starts its span from the
background context. -/
theorem spanParents_Notify (n : Notifier) (x : DataPipelineNotification) (e : Env)
    (f : Frame) :
    spanParents (effects (Notify n x) e f) = [Context.Background] := by
  cases h : n.svc.PublishWithContext Context.Background (snsInput x) with
  | err msg => rw [effects_Notify_publish_err n x e f msg h]; rfl
  | ok out =>
    cases hu : e.NewRandom f.randCalls with
    | err msg => rw [effects_Notify_random_err n x e f out msg h hu]; rfl
    | ok u => rw [effects_Notify_ok n x e f out u h hu]; rfl

/-- A text without line feed, followed by a line feed, is one line. -/
theorem linesOf_append_lineFeed (s : List Char) (h : lineFeed ∉ s) :
    linesOf (s ++ [lineFeed]) = [s] := by
  induction s with
  | nil => simp [linesOf]
  | cons c cs ih =>
    have hc : c ≠ lineFeed := fun hEq => h (by simp [hEq])
    have hcs : lineFeed ∉ cs := fun hm => h (List.mem_cons_of_mem _ hm)
    simp [linesOf, hc, ih hcs]

/-- A text that ends in a line feed has as many lines as line feeds. -/
theorem length_linesOf_append_lineFeed (s : List Char) :
    (linesOf (s ++ [lineFeed])).length = s.count lineFeed + 1 := by
  induction s with
  | nil => simp [linesOf]
  | cons c cs ih =>
    by_cases hc : c = lineFeed
    · subst hc
      simp [linesOf, ih]
    · have hne : (c == lineFeed) = false := by simpa using hc
      have hstep : linesOf (c :: (cs ++ [lineFeed])) =
          (match linesOf (cs ++ [lineFeed]) with
            | [] => [[c]]
            | l :: ls => (c :: l) :: ls) := by
        simp [linesOf, hc]
      rw [List.cons_append, hstep, List.count_cons, hne]
      cases hl : linesOf (cs ++ [lineFeed]) with
      | nil => rw [hl] at ih; simp at ih
      | cons l ls =>
        rw [hl] at ih
        simpa using ih

/-- Characters `Notify` writes to standard output on the success path. -/
theorem stdoutChars_Notify_ok (n : Notifier) (x : DataPipelineNotification) (e : Env)
    (f : Frame) (out : PublishOutput) (u : UUID)
    (h : n.svc.PublishWithContext Context.Background (snsInput x) = GoResult.ok out)
    (hu : e.NewRandom f.randCalls = GoResult.ok u) :
    stdoutChars (effects (Notify n x) e f) =
      ("Notification sent: ".data ++ x.PipelineName.data) ++ [lineFeed] := by
  rw [effects_Notify_ok n x e f out u h hu]
  simp [stdoutChars, String.data_append]
  rfl

/-! ## Publish request -/

/-- C1: when the publish call succeeds, `Notify` performs exactly one publish
call; its request has `Message` equal to the notification's `Message`,
`Subject` equal to "Data Pipeline Notification" and `TopicArn` equal to
"arn:aws:sns:us-west-2:123456789012:my-topic". -/
theorem notify_publishes_once (n : Notifier) (x : DataPipelineNotification) (e : Env)
    (f : Frame)
    (hp : (n.svc.PublishWithContext Context.Background (snsInput x)).failed = false) :
    (publishCalls (effects (Notify n x) e f)).map Prod.snd =
      [{ Message := some x.Message
         MessageAttributes := none
         MessageDeduplicationId := none
         MessageGroupId := none
         MessageStructure := none
         PhoneNumber := none
         Subject := some "Data Pipeline Notification"
         TargetArn := none
         TopicArn := some "arn:aws:sns:us-west-2:123456789012:my-topic" }] := by
  obtain ⟨out, h⟩ := GoResult.exists_ok_of_failed_eq_false _ hp
  cases hu : e.NewRandom f.randCalls with
  | err msg => rw [effects_Notify_random_err n x e f out msg h hu]; rfl
  | ok u => rw [effects_Notify_ok n x e f out u h hu]; rfl

/-- Witness for C1: the notification of `main` yields one publish call with
body "Error processing data". -/
theorem notify_publishes_once_witness :
    (demoNotifier.svc.PublishWithContext Context.Background
        (snsInput mainNotification)).failed = false ∧
    (publishCalls (effects (Notify demoNotifier mainNotification) okEnv Frame.start)).map
        Prod.snd =
      [{ Message := some "Error processing data"
         MessageAttributes := none
         MessageDeduplicationId := none
         MessageGroupId := none
         MessageStructure := none
         PhoneNumber := none
         Subject := some "Data Pipeline Notification"
         TargetArn := none
         TopicArn := some "arn:aws:sns:us-west-2:123456789012:my-topic" }] :=
  ⟨rfl, notify_publishes_once demoNotifier mainNotification okEnv Frame.start rfl⟩

/-- C8: two notifications with the same `Message` lead to the same publish
call, whatever their other fields, and the request carries no message
attributes and no deduplication key. -/
theorem notify_request_depends_on_message_only (n : Notifier)
    (x y : DataPipelineNotification) (e : Env) (f : Frame) (hm : x.Message = y.Message) :
    publishCalls (effects (Notify n x) e f) = publishCalls (effects (Notify n y) e f) ∧
    ∀ c ∈ publishCalls (effects (Notify n x) e f),
      c.2.MessageAttributes = none ∧ c.2.MessageDeduplicationId = none := by
  rw [publishCalls_Notify, publishCalls_Notify]
  refine ⟨?_, ?_⟩
  · simp [snsInput, hm]
  · intro c hc
    simp at hc
    subst hc
    exact ⟨rfl, rfl⟩

/-- Witness for C8: the notification of `main` and one that differs in
pipeline name, status and timestamp. -/
theorem notify_request_depends_on_message_only_witness :
    mainNotification.Message = otherNotification.Message ∧
    (publishCalls (effects (Notify demoNotifier mainNotification) okEnv Frame.start) =
        publishCalls (effects (Notify demoNotifier otherNotification) okEnv Frame.start) ∧
      ∀ c ∈ publishCalls (effects (Notify demoNotifier mainNotification) okEnv Frame.start),
        c.2.MessageAttributes = none ∧ c.2.MessageDeduplicationId = none) :=
  ⟨rfl, notify_request_depends_on_message_only demoNotifier mainNotification
    otherNotification okEnv Frame.start rfl⟩

/-! ## Fatal paths -/

/-- C2: when the publish call fails, `Notify` ends the process and writes
nothing to standard output; the random source is not read and no attribute is
set on the span. -/
theorem notify_publish_failure_is_fatal (n : Notifier) (x : DataPipelineNotification)
    (e : Env) (f : Frame)
    (hp : (n.svc.PublishWithContext Context.Background (snsInput x)).failed = true) :
    (Notify n x e f).exitCode = some 1 ∧
    stdoutWrites (effects (Notify n x) e f) = [] ∧
    randomReads (effects (Notify n x) e f) = 0 ∧
    attributesSet (effects (Notify n x) e f) = [] := by
  obtain ⟨msg, h⟩ := GoResult.exists_err_of_failed_eq_true _ hp
  rw [effects_Notify_publish_err n x e f msg h, Notify_publish_err n x e f msg h]
  exact ⟨rfl, rfl, rfl, rfl⟩

/-- Witness for C2: the notification of `main` with a failing client. -/
theorem notify_publish_failure_is_fatal_witness :
    (failingNotifier.svc.PublishWithContext Context.Background
        (snsInput mainNotification)).failed = true ∧
    ((Notify failingNotifier mainNotification okEnv Frame.start).exitCode = some 1 ∧
      stdoutWrites (effects (Notify failingNotifier mainNotification) okEnv Frame.start) = [] ∧
      randomReads (effects (Notify failingNotifier mainNotification) okEnv Frame.start) = 0 ∧
      attributesSet (effects (Notify failingNotifier mainNotification) okEnv Frame.start)
        = []) :=
  ⟨rfl, notify_publish_failure_is_fatal failingNotifier mainNotification okEnv Frame.start rfl⟩

/-- C7: `Notify` ends the process exactly when the publish call fails or the
identifier generation fails, and it returns normally exactly when both
succeed. -/
theorem notify_exits_iff_failure (n : Notifier) (x : DataPipelineNotification)
    (e : Env) (f : Frame) :
    ((Notify n x e f).exitCode = some 1 ↔
      ((n.svc.PublishWithContext Context.Background (snsInput x)).failed = true ∨
        (e.NewRandom f.randCalls).failed = true)) ∧
    ((Notify n x e f).exitCode = none ↔
      ((n.svc.PublishWithContext Context.Background (snsInput x)).failed = false ∧
        (e.NewRandom f.randCalls).failed = false)) := by
  cases h : n.svc.PublishWithContext Context.Background (snsInput x) with
  | err msg =>
    rw [Notify_publish_err n x e f msg h]
    simp [Result.exitCode, GoResult.failed]
  | ok out =>
    cases hu : e.NewRandom f.randCalls with
    | err msg =>
      rw [Notify_random_err n x e f out msg h hu]
      simp [Result.exitCode, GoResult.failed]
    | ok u =>
      rw [Notify_ok n x e f out u h hu]
      simp [Result.exitCode, GoResult.failed]

/-- C10: when the publish call succeeds and identifier generation fails, the
process ends after the confirmation line has been written: the line is on
standard output, it precedes the read of the random source, and no attribute
is set on the span. -/
theorem notify_prints_before_identifier (n : Notifier) (x : DataPipelineNotification)
    (e : Env) (f : Frame) (msg : String)
    (hp : (n.svc.PublishWithContext Context.Background (snsInput x)).failed = false)
    (hu : e.NewRandom f.randCalls = GoResult.err msg) :
    (Notify n x e f).exitCode = some 1 ∧
    effects (Notify n x) e f =
      [Event.startSpan "my-tracer" Context.Background "Notify",
        Event.publish Context.Background (snsInput x),
        Event.stdout ("Notification sent: " ++ x.PipelineName ++ "\n"),
        Event.newRandom, Event.logPrint msg] ∧
    stdoutWrites (effects (Notify n x) e f) =
      ["Notification sent: " ++ x.PipelineName ++ "\n"] ∧
    attributesSet (effects (Notify n x) e f) = [] := by
  obtain ⟨out, h⟩ := GoResult.exists_ok_of_failed_eq_false _ hp
  rw [effects_Notify_random_err n x e f out msg h hu, Notify_random_err n x e f out msg h hu]
  exact ⟨rfl, rfl, rfl, rfl⟩

/-- Witness for C10: the notification of `main`, a client that succeeds and a
random source that fails. -/
theorem notify_prints_before_identifier_witness :
    (demoNotifier.svc.PublishWithContext Context.Background
        (snsInput mainNotification)).failed = false ∧
    noEntropyEnv.NewRandom Frame.start.randCalls = GoResult.err "no entropy" ∧
    ((Notify demoNotifier mainNotification noEntropyEnv Frame.start).exitCode = some 1 ∧
      effects (Notify demoNotifier mainNotification) noEntropyEnv Frame.start =
        [Event.startSpan "my-tracer" Context.Background "Notify",
          Event.publish Context.Background (snsInput mainNotification),
          Event.stdout "Notification sent: my-pipeline\n",
          Event.newRandom, Event.logPrint "no entropy"] ∧
      stdoutWrites (effects (Notify demoNotifier mainNotification) noEntropyEnv Frame.start) =
        ["Notification sent: my-pipeline\n"] ∧
      attributesSet (effects (Notify demoNotifier mainNotification) noEntropyEnv Frame.start)
        = []) :=
  ⟨rfl, rfl, notify_prints_before_identifier demoNotifier mainNotification noEntropyEnv
    Frame.start "no entropy" rfl rfl⟩

/-- C5, evaluated on the fatal paths: with the notification of `main`, a
failing client (or a failing random source) ends the process with status 1
after the span was started, the span is never ended, and its deferred `End`
is still pending on the defer stack. -/
theorem notify_fatal_skips_span_end :
    ((Notify failingNotifier mainNotification okEnv Frame.start).exitCode = some 1 ∧
      spansStarted (effects (Notify failingNotifier mainNotification) okEnv Frame.start) =
        [("my-tracer", "Notify")] ∧
      spansEnded (effects (Notify failingNotifier mainNotification) okEnv Frame.start) = [] ∧
      (Notify failingNotifier mainNotification okEnv Frame.start).frame.defers =
        [Deferred.spanEnd notifySpan]) ∧
    ((Notify demoNotifier mainNotification noEntropyEnv Frame.start).exitCode = some 1 ∧
      spansStarted (effects (Notify demoNotifier mainNotification) noEntropyEnv Frame.start) =
        [("my-tracer", "Notify")] ∧
      spansEnded (effects (Notify demoNotifier mainNotification) noEntropyEnv Frame.start)
        = [] ∧
      (Notify demoNotifier mainNotification noEntropyEnv Frame.start).frame.defers =
        [Deferred.spanEnd notifySpan]) := by
  rw [effects_Notify_publish_err failingNotifier mainNotification okEnv Frame.start
      "publish failed" rfl,
    Notify_publish_err failingNotifier mainNotification okEnv Frame.start "publish failed" rfl,
    effects_Notify_random_err demoNotifier mainNotification noEntropyEnv Frame.start
      { MessageId := some "m-1" } "no entropy" rfl rfl,
    Notify_random_err demoNotifier mainNotification noEntropyEnv Frame.start
      { MessageId := some "m-1" } "no entropy" rfl rfl]
  exact ⟨⟨rfl, rfl, rfl, rfl⟩, ⟨rfl, rfl, rfl, rfl⟩⟩

/-! ## Success path -/

/-- C3 as stated fails: with a pipeline name that contains a line feed, a
successful `Notify` writes two lines to standard output, not one. -/
theorem notify_confirmation_two_lines :
    (demoNotifier.svc.PublishWithContext Context.Background
        (snsInput twoLineNotification)).failed = false ∧
    (okEnv.NewRandom Frame.start.randCalls).failed = false ∧
    stdoutLines (effects (Notify demoNotifier twoLineNotification) okEnv Frame.start) =
      ["Notification sent: a", "b"] ∧
    ¬ stdoutLines (effects (Notify demoNotifier twoLineNotification) okEnv Frame.start) =
      ["Notification sent:" ++ " " ++ twoLineNotification.PipelineName] := by
  have hl : stdoutLines
      (effects (Notify demoNotifier twoLineNotification) okEnv Frame.start) =
      ["Notification sent: a", "b"] := by
    rw [effects_Notify_ok demoNotifier twoLineNotification okEnv Frame.start
      { MessageId := some "m-1" } { val := 1000 } rfl rfl]
    decide
  refine ⟨rfl, rfl, hl, ?_⟩
  rw [hl]
  decide

/-- C3 as amended: on a successful `Notify` exactly one write goes to standard
output, the label "Notification sent:", one space, the notification's
`PipelineName` unchanged (for every string) and a line feed; the number of
lines written is one more than the number of line feeds in the pipeline name,
and the output is the single line `Notification sent: <pipeline_name>`
exactly when the pipeline name contains no line feed. -/
theorem notify_confirmation_line (n : Notifier) (x : DataPipelineNotification)
    (e : Env) (f : Frame)
    (hp : (n.svc.PublishWithContext Context.Background (snsInput x)).failed = false)
    (hu : (e.NewRandom f.randCalls).failed = false) :
    stdoutWrites (effects (Notify n x) e f) =
      ["Notification sent:" ++ " " ++ x.PipelineName ++ "\n"] ∧
    (stdoutLines (effects (Notify n x) e f)).length =
      x.PipelineName.data.count lineFeed + 1 ∧
    (stdoutLines (effects (Notify n x) e f) =
        ["Notification sent:" ++ " " ++ x.PipelineName] ↔
      lineFeed ∉ x.PipelineName.data) := by
  obtain ⟨out, h⟩ := GoResult.exists_ok_of_failed_eq_false _ hp
  obtain ⟨u, hu1⟩ := GoResult.exists_ok_of_failed_eq_false _ hu
  have hlabel : lineFeed ∉ "Notification sent: ".data := by decide
  have hcount : "Notification sent: ".data.count lineFeed = 0 :=
    List.count_eq_zero.mpr hlabel
  have hlen : (stdoutLines (effects (Notify n x) e f)).length =
      x.PipelineName.data.count lineFeed + 1 := by
    rw [stdoutLines, stdoutChars_Notify_ok n x e f out u h hu1, List.length_map,
      length_linesOf_append_lineFeed, List.count_append, hcount, Nat.zero_add]
  refine ⟨?_, hlen, ?_, ?_⟩
  · rw [effects_Notify_ok n x e f out u h hu1]
    rfl
  · intro hone hmem
    rw [hone] at hlen
    have hpos : 0 < x.PipelineName.data.count lineFeed := List.count_pos_iff.mpr hmem
    simp at hlen
    omega
  · intro hno
    have hall : lineFeed ∉ "Notification sent: ".data ++ x.PipelineName.data := by
      intro hm
      rcases List.mem_append.mp hm with hm1 | hm2
      · exact hlabel hm1
      · exact hno hm2
    rw [stdoutLines, stdoutChars_Notify_ok n x e f out u h hu1,
      linesOf_append_lineFeed _ hall]
    rfl

/-- Witness for C3: pipeline name "my-pipeline", which has no line feed, gives
the one line `Notification sent: my-pipeline`. -/
theorem notify_confirmation_line_witness :
    (demoNotifier.svc.PublishWithContext Context.Background
        (snsInput mainNotification)).failed = false ∧
    (okEnv.NewRandom Frame.start.randCalls).failed = false ∧
    stdoutWrites (effects (Notify demoNotifier mainNotification) okEnv Frame.start) =
      ["Notification sent: my-pipeline\n"] ∧
    stdoutLines (effects (Notify demoNotifier mainNotification) okEnv Frame.start) =
      ["Notification sent: my-pipeline"] :=
  ⟨rfl, rfl,
    (notify_confirmation_line demoNotifier mainNotification okEnv Frame.start rfl rfl).1,
    (notify_confirmation_line demoNotifier mainNotification okEnv Frame.start
      rfl rfl).2.2.mpr (by decide)⟩

/-- C4: a successful `Notify` starts exactly one span, named "Notify" under
the tracer "my-tracer", reads the random source once and sets exactly one
attribute on that span: key `semconv.AttributeUUID`, value the identifier the
generator returned in this call. -/
theorem notify_span_and_attribute (n : Notifier) (x : DataPipelineNotification)
    (e : Env) (f : Frame) (u : UUID)
    (hp : (n.svc.PublishWithContext Context.Background (snsInput x)).failed = false)
    (hu : e.NewRandom f.randCalls = GoResult.ok u) :
    spansStarted (effects (Notify n x) e f) = [("my-tracer", "Notify")] ∧
    randomReads (effects (Notify n x) e f) = 1 ∧
    attributesSet (effects (Notify n x) e f) =
      [({ tracer := "my-tracer", name := "Notify" }, e.AttributeUUID, u)] := by
  obtain ⟨out, h⟩ := GoResult.exists_ok_of_failed_eq_false _ hp
  rw [effects_Notify_ok n x e f out u h hu]
  exact ⟨rfl, rfl, rfl⟩

/-- Witness for C4: the notification of `main`; the generator returns the
identifier 1000 and that is the attribute value. -/
theorem notify_span_and_attribute_witness :
    (demoNotifier.svc.PublishWithContext Context.Background
        (snsInput mainNotification)).failed = false ∧
    okEnv.NewRandom Frame.start.randCalls = GoResult.ok { val := 1000 } ∧
    (spansStarted (effects (Notify demoNotifier mainNotification) okEnv Frame.start) =
        [("my-tracer", "Notify")] ∧
      randomReads (effects (Notify demoNotifier mainNotification) okEnv Frame.start) = 1 ∧
      attributesSet (effects (Notify demoNotifier mainNotification) okEnv Frame.start) =
        [({ tracer := "my-tracer", name := "Notify" }, "uuid", { val := 1000 })]) :=
  ⟨rfl, rfl, notify_span_and_attribute demoNotifier mainNotification okEnv Frame.start
    { val := 1000 } rfl rfl⟩

/-- C6: on the success path `Notify` returns, the span end is recorded exactly
once, and it is the last effect, after the publish call, the confirmation line
and the attribute. -/
theorem notify_span_end_last (n : Notifier) (x : DataPipelineNotification)
    (e : Env) (f : Frame) (u : UUID)
    (hp : (n.svc.PublishWithContext Context.Background (snsInput x)).failed = false)
    (hu : e.NewRandom f.randCalls = GoResult.ok u) :
    (Notify n x e f).exitCode = none ∧
    effects (Notify n x) e f =
      [Event.startSpan "my-tracer" Context.Background "Notify",
        Event.publish Context.Background (snsInput x),
        Event.stdout ("Notification sent: " ++ x.PipelineName ++ "\n"),
        Event.newRandom,
        Event.setAttributes notifySpan e.AttributeUUID u] ++ [Event.spanEnd notifySpan] ∧
    spansEnded (effects (Notify n x) e f) = [notifySpan] ∧
    (effects (Notify n x) e f).getLast? = some (Event.spanEnd notifySpan) := by
  obtain ⟨out, h⟩ := GoResult.exists_ok_of_failed_eq_false _ hp
  rw [effects_Notify_ok n x e f out u h hu, Notify_ok n x e f out u h hu]
  exact ⟨rfl, rfl, rfl, rfl⟩

/-- Witness for C6: the notification of `main` with collaborators that succeed. -/
theorem notify_span_end_last_witness :
    (demoNotifier.svc.PublishWithContext Context.Background
        (snsInput mainNotification)).failed = false ∧
    okEnv.NewRandom Frame.start.randCalls = GoResult.ok { val := 1000 } ∧
    ((Notify demoNotifier mainNotification okEnv Frame.start).exitCode = none ∧
      effects (Notify demoNotifier mainNotification) okEnv Frame.start =
        [Event.startSpan "my-tracer" Context.Background "Notify",
          Event.publish Context.Background (snsInput mainNotification),
          Event.stdout "Notification sent: my-pipeline\n",
          Event.newRandom,
          Event.setAttributes notifySpan "uuid" { val := 1000 }] ++
          [Event.spanEnd notifySpan] ∧
      spansEnded (effects (Notify demoNotifier mainNotification) okEnv Frame.start) =
        [notifySpan] ∧
      (effects (Notify demoNotifier mainNotification) okEnv Frame.start).getLast? =
        some (Event.spanEnd notifySpan)) :=
  ⟨rfl, rfl, notify_span_end_last demoNotifier mainNotification okEnv Frame.start
    { val := 1000 } rfl rfl⟩

/-! ## Context of the publish call -/

/-- C9 as stated fails: with the notification of `main` and collaborators
that succeed, it is not the case that the context of every publish call
carries the "Notify" span. -/
theorem notify_publish_context_has_no_span :
    ¬ ∀ c ∈ (publishCalls
        (effects (Notify demoNotifier mainNotification) okEnv Frame.start)).map Prod.fst,
      c.span? = some notifySpan := by
  intro h
  have hb := h Context.Background
    (by rw [publishCalls_Notify]; simp)
  simp [Context.span?] at hb

/-- C9 as amended: the publish call is made with `context.Background()`, the
same context that was handed to `StartSpan` as parent; that context carries
no span. -/
theorem notify_publishes_with_background_context (n : Notifier)
    (x : DataPipelineNotification) (e : Env) (f : Frame) :
    (publishCalls (effects (Notify n x) e f)).map Prod.fst = [Context.Background] ∧
    spanParents (effects (Notify n x) e f) =
      (publishCalls (effects (Notify n x) e f)).map Prod.fst ∧
    ∀ c ∈ (publishCalls (effects (Notify n x) e f)).map Prod.fst, c.span? = none := by
  rw [publishCalls_Notify, spanParents_Notify]
  refine ⟨rfl, rfl, ?_⟩
  intro c hc
  simp at hc
  subst hc
  rfl

end Pipeline
